import Mathlib

/-!
Verification development for the comment-interaction pipeline
(`loop_agent_runner.py` / `main.py`): a three-stage sequential generation
pipeline (StateSetup, CommentAnalyzer, CommentResponder) with per-invocation
session state, orchestrated by `run_comment_interaction`.

The orchestrator `run_comment_interaction` is embedded directly from
`src/loop_agent_runner.py`.  The execution machinery it delegates to
(`google.adk` `SequentialAgent`/`LlmAgent`/`Runner`, `InMemorySessionService`,
`uuid.uuid4`) is external library code; where a property depends on it, the
machinery is modelled from the spec (each such definition carries a
`Modelled from the spec:` doc comment).
-/

/-- A state value held in a session's state dictionary: either a text string
(stage outputs) or a structured object of string fields (the seed payload
`{"comment": ..., "context": ..., "tone": ...}`). -/
inductive Val where
  | str (s : String)
  | obj (fields : List (String × String))
deriving DecidableEq, Repr

/-- Python truthiness of a state value: the empty string and the empty dict
are falsy, everything else is truthy. -/
def Val.truthy : Val → Bool
  | .str s => !(s == "")
  | .obj fs => !fs.isEmpty

/-- Python truthiness of an optional state value (`None` is falsy). -/
def optValTruthy : Option Val → Bool
  | none => false
  | some v => v.truthy

/-- Python truthiness of an optional string (`None` and `""` are falsy). -/
def optStrTruthy : Option String → Bool
  | none => false
  | some s => !(s == "")

/-- A session state dictionary: association list from output key to value. -/
abbrev StateMap : Type := List (String × Val)

/-- `st.get(k)` on a Python dict: the value at the first matching key, `None`
when absent. -/
def stateGet (st : StateMap) (k : String) : Option Val :=
  (List.find? (fun p => p.1 == k) st).map (fun p => p.2)

/-- `st[k] = v` on a Python dict: overwrite the existing entry for `k`, or
append a new one. -/
def stateSet (st : StateMap) (k : String) (v : Val) : StateMap :=
  if List.any st (fun p => p.1 == k) then
    List.map (fun p => if p.1 == k then (k, v) else p) st
  else
    st ++ [(k, v)]

/-- An event observed while iterating `runner.run(...)`: whether
`event.is_final_response()` holds, and the text `event.content.parts[0].text`
(which may be `None`). -/
structure Event where
  is_final : Bool
  text : Option String
deriving DecidableEq, Repr

/-- The event-processing loop of `run_comment_interaction` (lines 101-103):
`final_response_text` ends up as the text of the last final-response event,
`None` if there was none. -/
def lastFinalText (events : List Event) : Option String :=
  List.foldl (fun acc e => if e.is_final then e.text else acc) none events

/-- Outcome of one `session_service.get_session(...)` call: a session with
its state, `None`, or a raised exception with message `msg`. -/
inductive GetResult where
  | found (state : StateMap)
  | notFound
  | exn (msg : String)
deriving DecidableEq

/-- The external world one invocation of `run_comment_interaction` interacts
with: whether `session_service.create_session` raises (and with which
message), the events `runner.run` yields before finishing or raising, whether
the run/event-iteration raises afterwards, and the response to the k-th
`session_service.get_session` call. -/
structure World where
  create_session : Option String
  events : List Event
  run_exn : Option String
  session_reads : Nat → GetResult

/-- The result dictionary returned by `run_comment_interaction`: either the
early-return dict `{"error": ...}` of the session-creation failure path
(line 79), or the full four-field dict built at lines 126-131. -/
inductive RunResult where
  | createFailed (error : String)
  | full (session_id : String) (final_state : StateMap)
      (final_response : Option Val) (error : Option String)
deriving DecidableEq

/-- Whether the returned dictionary carries all four fields `session_id`,
`final_state`, `final_response`, `error`. -/
def RunResult.has_all_fields : RunResult → Bool
  | .createFailed _ => false
  | .full _ _ _ _ => true

/-- The `final_response` field of a full result, `None` for the
session-creation failure dict (absent key). -/
def RunResult.final_response : RunResult → Option Val
  | .createFailed _ => none
  | .full _ _ fr _ => fr

/-- The `final_state` field of a full result, `[]` for the
session-creation failure dict (absent key). -/
def RunResult.final_state : RunResult → StateMap
  | .createFailed _ => []
  | .full _ fs _ _ => fs

/-- The `error` field of the returned dictionary. -/
def RunResult.error : RunResult → Option String
  | .createFailed e => some e
  | .full _ _ _ e => e

/-- Result preparation, lines 126-135 of `loop_agent_runner.py`: build the
result dict with `final_response` taken from the state
(`final_state_dict.get("final_response")`), then fall back to the captured
event text when the state value is falsy and the captured text is truthy
(`if not result["final_response"] and final_response_text`). -/
def mkResult (session_id : String) (st : StateMap) (err : Option String)
    (final_response_text : Option String) : RunResult :=
  let fromState := stateGet st "final_response"
  if !(optValTruthy fromState) && optStrTruthy final_response_text then
    .full session_id st (final_response_text.map Val.str) err
  else
    .full session_id st fromState err

/-- `run_comment_interaction` from `src/loop_agent_runner.py` (lines 63-141),
instrumented with the number of `session_service.get_session` calls made.
The caller-visible control flow:
* `create_session` raising returns the one-field dict `{"error": ...}`;
* otherwise `runner.run` is iterated (capturing `final_response_text`);
  if it raises, the `except` block makes one best-effort `get_session`
  (a raised or `None` read leaves `final_state_dict` empty) and sets
  `error_message` to the original failure;
* on a clean run, one `get_session`: `None` sets the
  "Failed to retrieve final session state." error with empty state, a raise
  lands in the same `except` block (second read there). -/
def run_comment_interaction_instr (session_id comment context tone : String)
    (w : World) : RunResult × Nat :=
  match w.create_session with
  | some e => (.createFailed ("Failed to create session: " ++ e), 0)
  | none =>
    let final_response_text := lastFinalText w.events
    match w.run_exn with
    | some msg =>
      let final_state_dict : StateMap :=
        match w.session_reads 0 with
        | .found s => s
        | _ => []
      (mkResult session_id final_state_dict
        (some ("Agent execution failed: " ++ msg)) final_response_text, 1)
    | none =>
      match w.session_reads 0 with
      | .found st => (mkResult session_id st none final_response_text, 1)
      | .notFound =>
        (mkResult session_id []
          (some "Failed to retrieve final session state.") final_response_text, 1)
      | .exn msg =>
        let final_state_dict : StateMap :=
          match w.session_reads 1 with
          | .found s => s
          | _ => []
        (mkResult session_id final_state_dict
          (some ("Agent execution failed: " ++ msg)) final_response_text, 2)

/-- `run_comment_interaction`: the returned result dictionary.  The unused
`comment`/`context`/`tone` arguments feed the initial message handed to the
backend (part of `World`); they are kept for signature fidelity. -/
def run_comment_interaction (session_id comment context tone : String)
    (w : World) : RunResult :=
  (run_comment_interaction_instr session_id comment context tone w).1

example :
    run_comment_interaction "s" "c" "x" "t"
      { create_session := none
        events := [⟨true, some "hello"⟩]
        run_exn := none
        session_reads := fun _ => .found [("final_response", .str "")] } =
      .full "s" [("final_response", .str "")] (some (.str "hello")) none := by
  decide

/-- Modelled from the spec: the `google.adk` `LlmAgent` is library code not
under `src/`; per the spec a Stage is "a single named unit of text
generation" with "a name, a designated output key, and a generation
function".  The generation function is supplied separately as an oracle. -/
structure Stage where
  name : String
  output_key : String
deriving DecidableEq, Repr

/-- The `StateSetup` agent (lines 30-35 of `loop_agent_runner.py`). -/
def state_setup_agent : Stage :=
  { name := "StateSetup", output_key := "initial_data" }

/-- The `CommentAnalyzer` agent (lines 36-41). -/
def comment_analyzer_agent : Stage :=
  { name := "CommentAnalyzer", output_key := "analysis" }

/-- The `CommentResponder` agent (lines 42-47). -/
def comment_responder_agent : Stage :=
  { name := "CommentResponder", output_key := "final_response" }

/-- The `SequentialAgent` workflow (lines 50-53): the ordered list of
sub-agents. -/
def comment_interaction_agent : List Stage :=
  [state_setup_agent, comment_analyzer_agent, comment_responder_agent]

/-- `initial_message_data` (line 68): the seed payload bundling comment,
context and tone.  Its `json.dumps` serialization (line 69) is modelled by
the structured value itself, carried as the initial user message. -/
def initial_message_data (comment context tone : String) : Val :=
  .obj [("comment", comment), ("context", context), ("tone", tone)]

/-- A generation backend oracle: given the stage, the initial user message
and the current accumulated session state, it yields the stage's output
value or fails (a `GenerationError` with message). -/
abbrev Gen := Stage → Val → StateMap → Except String Val

/-- Record of one executed stage: its name, its output key, the session
state it observed as input, and the output it produced. -/
structure StageRun where
  name : String
  key : String
  input : StateMap
  output : Val
deriving DecidableEq, Repr

/-- Modelled from the spec: the `SequentialAgent`/`Runner` executor is
library code not under `src/`.  Per the spec, the pipeline "runs each stage
strictly after the previous one completes", merging each stage's output into
the state under its output key; "on the first stage failure, execution halts
immediately; state accumulated so far is retained and returned alongside the
error".  Returns the final state, the terminal error (if any), and the trace
of executed stages. -/
def pipelineExec (gen : Gen) (msg : Val) :
    List Stage → StateMap → StateMap × Option String × List StageRun
  | [], st => (st, none, [])
  | stg :: rest, st =>
    match gen stg msg st with
    | .error e => (st, some e, [])
    | .ok v =>
      let out := pipelineExec gen msg rest (stateSet st stg.output_key v)
      (out.1, out.2.1, ⟨stg.name, stg.output_key, st, v⟩ :: out.2.2)

/-- Modelled from the spec: the fallback text captured from the event stream
is "the last observed raw generation text emitted by the terminal stage, if
one was captured" — a final-response event carrying the `CommentResponder`
output text when that stage completed with a text output, nothing
otherwise. -/
def terminalEvents (tr : List StageRun) : List Event :=
  match List.find? (fun r => r.name == "CommentResponder") tr with
  | some r =>
    match r.output with
    | .str s => [⟨true, some s⟩]
    | .obj _ => []
  | none => []

/-- Modelled from the spec: the `World` that `run_comment_interaction`
observes when the backend behaves as `gen` and the session service is the
in-memory store — `runner.run` raises exactly the pipeline's terminal error,
the events carry the terminal stage's text, and every `get_session` returns
the session with the accumulated (possibly partial) state, which "remains
readable after run completion (success or failure)". -/
def worldOfGen (msg : Val) (gen : Gen) : World :=
  let out := pipelineExec gen msg comment_interaction_agent []
  { create_session := none
    events := terminalEvents out.2.2
    run_exn := out.2.1
    session_reads := fun _ => .found out.1 }

/-- One full invocation against the modelled backend: orchestrator
(`run_comment_interaction`, embedded from source) composed with the
spec-modelled pipeline executor. -/
def run_interaction_with_gen (session_id comment context tone : String)
    (gen : Gen) : RunResult :=
  run_comment_interaction session_id comment context tone
    (worldOfGen (initial_message_data comment context tone) gen)

theorem mkResult_has_all_fields (sid : String) (st : StateMap)
    (err : Option String) (frt : Option String) :
    (mkResult sid st err frt).has_all_fields = true := by
  simp only [mkResult]
  split <;> rfl

theorem mkResult_error (sid : String) (st : StateMap)
    (err : Option String) (frt : Option String) :
    (mkResult sid st err frt).error = err := by
  simp only [mkResult]
  split <;> rfl

theorem mkResult_final_state (sid : String) (st : StateMap)
    (err : Option String) (frt : Option String) :
    (mkResult sid st err frt).final_state = st := by
  simp only [mkResult]
  split <;> rfl

theorem mkResult_final_response (sid : String) (st : StateMap)
    (err : Option String) (frt : Option String) :
    (mkResult sid st err frt).final_response =
      if !(optValTruthy (stateGet st "final_response")) && optStrTruthy frt then
        frt.map Val.str
      else
        stateGet st "final_response" := by
  simp only [mkResult]
  split <;> simp_all [RunResult.final_response]

/-- C1: for every input triple and every behaviour of the backend and the
session service, `run_comment_interaction` returns a result and never
propagates an exception; the result carries all four fields `session_id`,
`final_state`, `final_response`, `error` — except on the session-creation
failure path, where the returned dict carries only `error`. -/
theorem C1_total_result (session_id comment context tone : String) (w : World) :
    (run_comment_interaction session_id comment context tone w).has_all_fields = true ∨
    ∃ e, w.create_session = some e ∧
      run_comment_interaction session_id comment context tone w =
        .createFailed ("Failed to create session: " ++ e) := by
  cases hc : w.create_session with
  | some e =>
    exact .inr ⟨e, rfl, by
      simp only [run_comment_interaction, run_comment_interaction_instr, hc]⟩
  | none =>
    left
    simp only [run_comment_interaction, run_comment_interaction_instr, hc]
    cases hr : w.run_exn with
    | some msg => exact mkResult_has_all_fields ..
    | none =>
      cases hs : w.session_reads 0 with
      | found st => exact mkResult_has_all_fields ..
      | notFound => exact mkResult_has_all_fields ..
      | exn msg => exact mkResult_has_all_fields ..

/-- C1 counterexample world: `session_service.create_session` raises. -/
def w_createFail : World :=
  { create_session := some "boom"
    events := []
    run_exn := none
    session_reads := fun _ => .notFound }

/-- C1 counterexample: when the session service faults at creation, the
returned dict is `\x7b"error": "Failed to create session: boom"\x7d` and does
NOT contain all four fields, contrary to the claim as stated. -/
theorem C1_counterexample :
    run_comment_interaction "session_cex" "Great post!" "Post about X" "happy"
        w_createFail =
      .createFailed "Failed to create session: boom" ∧
    (run_comment_interaction "session_cex" "Great post!" "Post about X" "happy"
        w_createFail).has_all_fields = false := by
  constructor <;> rfl

/-- C3 counterexample world: the final state maps `final_response` to the
empty string while a final-event text was captured. -/
def w_emptyStringState : World :=
  { create_session := none
    events := [⟨true, some "fallback text"⟩]
    run_exn := none
    session_reads := fun _ => .found [("final_response", .str "")] }

/-- C3 counterexample: the final state contains the key `final_response`
(value `""`), yet the result's `final_response` is the captured event text,
not that state value — the state value is only authoritative when truthy. -/
theorem C3_counterexample :
    stateGet
        (run_comment_interaction "s1" "c" "x" "neutral" w_emptyStringState).final_state
        "final_response" = some (.str "") ∧
    (run_comment_interaction "s1" "c" "x" "neutral" w_emptyStringState).final_response =
      some (.str "fallback text") ∧
    (run_comment_interaction "s1" "c" "x" "neutral" w_emptyStringState).final_response ≠
      some (.str "") := by
  refine ⟨rfl, rfl, ?_⟩
  decide

/-- C3 (amended): extraction precedence by Python truthiness on a clean run —
a truthy state value under `final_response` is the result's `final_response`;
when the state value is falsy and the captured final-event text is truthy,
that text is used; when the key is absent and no truthy text was captured,
the result's `final_response` is null. -/
theorem C3_extraction_precedence (session_id comment context tone : String)
    (w : World) (st : StateMap)
    (hc : w.create_session = none) (hr : w.run_exn = none)
    (hs : w.session_reads 0 = .found st) :
    (optValTruthy (stateGet st "final_response") = true →
      (run_comment_interaction session_id comment context tone w).final_response =
        stateGet st "final_response") ∧
    (optValTruthy (stateGet st "final_response") = false →
      optStrTruthy (lastFinalText w.events) = true →
      (run_comment_interaction session_id comment context tone w).final_response =
        (lastFinalText w.events).map Val.str) ∧
    (stateGet st "final_response" = none →
      optStrTruthy (lastFinalText w.events) = false →
      (run_comment_interaction session_id comment context tone w).final_response =
        none) := by
  simp only [run_comment_interaction, run_comment_interaction_instr, hc, hr, hs]
  rw [mkResult_final_response]
  refine ⟨fun h1 => ?_, fun h1 h2 => ?_, fun h1 h2 => ?_⟩
  · simp [h1]
  · simp [h1, h2]
  · simp [h1, h2]

/-- C3 witness world: all three stages succeeded and the state carries a
truthy responder output. -/
def w_happyPath : World :=
  { create_session := none
    events := [⟨true, some "Thanks for reading!"⟩]
    run_exn := none
    session_reads := fun _ =>
      .found [("initial_data", .obj [("comment", "Great post!")]),
              ("analysis", .str "positive"),
              ("final_response", .str "Thanks for reading!")] }

theorem C3_extraction_precedence_witness :
    (run_comment_interaction "s2" "Great post!" "Post about X" "happy"
        w_happyPath).final_response = some (.str "Thanks for reading!") :=
  ((C3_extraction_precedence "s2" "Great post!" "Post about X" "happy"
      w_happyPath
      [("initial_data", .obj [("comment", "Great post!")]),
       ("analysis", .str "positive"),
       ("final_response", .str "Thanks for reading!")]
      rfl rfl rfl).1 (by decide)).trans (by decide)

/-- C4: on any exception raised during pipeline execution, exactly one
best-effort `get_session` read is made, and the result's `error` describes
the original execution failure whatever that read returns (found, missing,
or itself raising). -/
theorem C4_single_readback (session_id comment context tone msg : String)
    (w : World) (hc : w.create_session = none) (hr : w.run_exn = some msg) :
    (run_comment_interaction_instr session_id comment context tone w).2 = 1 ∧
    (run_comment_interaction_instr session_id comment context tone w).1.error =
      some ("Agent execution failed: " ++ msg) := by
  simp only [run_comment_interaction_instr, hc, hr]
  exact ⟨trivial, mkResult_error ..⟩

/-- C4 witness world: the pipeline raises and the best-effort read-back
itself raises too. -/
def w_runFailReadFail : World :=
  { create_session := none
    events := []
    run_exn := some "backend timeout"
    session_reads := fun _ => .exn "store unavailable" }

theorem C4_single_readback_witness :
    (run_comment_interaction_instr "s3" "c" "x" "strict" w_runFailReadFail).2 = 1 ∧
    (run_comment_interaction_instr "s3" "c" "x" "strict" w_runFailReadFail).1.error =
      some "Agent execution failed: backend timeout" :=
  C4_single_readback "s3" "c" "x" "strict" "backend timeout" w_runFailReadFail rfl rfl

/-- C5: when the pipeline completes without an exception and the retrieved
final state holds no `final_response` key and no final-event text was
captured, the result carries a null `final_response` AND a null `error` —
an extraction miss is not reported as an error. -/
theorem C5_extraction_miss (session_id comment context tone : String)
    (w : World) (st : StateMap)
    (hc : w.create_session = none) (hr : w.run_exn = none)
    (hs : w.session_reads 0 = .found st)
    (hk : stateGet st "final_response" = none)
    (ht : lastFinalText w.events = none) :
    (run_comment_interaction session_id comment context tone w).final_response =
      none ∧
    (run_comment_interaction session_id comment context tone w).error = none := by
  simp only [run_comment_interaction, run_comment_interaction_instr, hc, hr, hs]
  rw [mkResult_final_response]
  refine ⟨?_, mkResult_error ..⟩
  simp [hk, ht]

/-- C5 witness world: clean run, no responder key in state, no event text. -/
def w_noResponseKey : World :=
  { create_session := none
    events := []
    run_exn := none
    session_reads := fun _ =>
      .found [("initial_data", .obj [("tone", "neutral")]),
              ("analysis", .str "neutral")] }

theorem C5_extraction_miss_witness :
    (run_comment_interaction "s4" "c" "x" "neutral" w_noResponseKey).final_response =
      none ∧
    (run_comment_interaction "s4" "c" "x" "neutral" w_noResponseKey).error = none :=
  C5_extraction_miss "s4" "c" "x" "neutral" w_noResponseKey
    [("initial_data", .obj [("tone", "neutral")]), ("analysis", .str "neutral")]
    rfl rfl rfl (by decide) rfl

/-- C9: on a clean run whose final state maps `final_response` to the empty
string, the result's `final_response` agrees with the captured final-event
text whenever one was captured — the state's empty string is not kept as
authoritative over a truthy captured text. -/
theorem C9_falsy_state_fallback (session_id comment context tone s : String)
    (w : World) (st : StateMap)
    (hc : w.create_session = none) (hr : w.run_exn = none)
    (hs : w.session_reads 0 = .found st)
    (hk : stateGet st "final_response" = some (.str ""))
    (ht : lastFinalText w.events = some s) :
    (run_comment_interaction session_id comment context tone w).final_response =
      some (.str s) := by
  simp only [run_comment_interaction, run_comment_interaction_instr, hc, hr, hs]
  rw [mkResult_final_response, hk, ht]
  by_cases h : s = ""
  · subst h
    simp [optValTruthy, optStrTruthy, Val.truthy]
  · simp [optValTruthy, optStrTruthy, Val.truthy, h]

theorem C9_falsy_state_fallback_witness :
    (run_comment_interaction "s1" "c" "x" "neutral" w_emptyStringState).final_response =
      some (.str "fallback text") :=
  C9_falsy_state_fallback "s1" "c" "x" "neutral" "fallback text"
    w_emptyStringState [("final_response", .str "")] rfl rfl rfl (by decide) rfl

/-- C10: on a clean pipeline run after which `get_session` returns `None`,
the result's `error` is the non-null string
"Failed to retrieve final session state." and `final_state` is the empty
map — a successful pipeline can still yield a non-null error. -/
theorem C10_missing_session (session_id comment context tone : String)
    (w : World)
    (hc : w.create_session = none) (hr : w.run_exn = none)
    (hs : w.session_reads 0 = .notFound) :
    (run_comment_interaction session_id comment context tone w).error =
      some "Failed to retrieve final session state." ∧
    (run_comment_interaction session_id comment context tone w).final_state = [] := by
  simp only [run_comment_interaction, run_comment_interaction_instr, hc, hr, hs]
  exact ⟨mkResult_error .., mkResult_final_state ..⟩

/-- C10 witness world: clean run, session lookup returns `None`. -/
def w_sessionGone : World :=
  { create_session := none
    events := []
    run_exn := none
    session_reads := fun _ => .notFound }

theorem C10_missing_session_witness :
    (run_comment_interaction "s5" "c" "x" "happy" w_sessionGone).error =
      some "Failed to retrieve final session state." ∧
    (run_comment_interaction "s5" "c" "x" "happy" w_sessionGone).final_state = [] :=
  C10_missing_session "s5" "c" "x" "happy" w_sessionGone rfl rfl rfl

theorem pipelineExec_setup_error (gen : Gen) (msg : Val) (e : String)
    (h1 : gen state_setup_agent msg [] = .error e) :
    pipelineExec gen msg comment_interaction_agent [] = ([], some e, []) := by
  simp [pipelineExec, comment_interaction_agent, h1]

theorem pipelineExec_analyzer_error (gen : Gen) (msg : Val) (v : Val) (e : String)
    (h1 : gen state_setup_agent msg [] = .ok v)
    (h2 : gen comment_analyzer_agent msg (stateSet [] "initial_data" v) = .error e) :
    pipelineExec gen msg comment_interaction_agent [] =
      (stateSet [] "initial_data" v, some e,
        [⟨"StateSetup", "initial_data", [], v⟩]) := by
  simp only [state_setup_agent] at h1
  simp only [comment_analyzer_agent] at h2
  simp [pipelineExec, comment_interaction_agent, h1, h2,
    state_setup_agent, comment_analyzer_agent, comment_responder_agent]

theorem pipelineExec_responder_error (gen : Gen) (msg : Val) (v a : Val) (e : String)
    (h1 : gen state_setup_agent msg [] = .ok v)
    (h2 : gen comment_analyzer_agent msg (stateSet [] "initial_data" v) = .ok a)
    (h3 : gen comment_responder_agent msg
        (stateSet (stateSet [] "initial_data" v) "analysis" a) = .error e) :
    pipelineExec gen msg comment_interaction_agent [] =
      (stateSet (stateSet [] "initial_data" v) "analysis" a, some e,
        [⟨"StateSetup", "initial_data", [], v⟩,
         ⟨"CommentAnalyzer", "analysis", stateSet [] "initial_data" v, a⟩]) := by
  simp only [state_setup_agent] at h1
  simp only [comment_analyzer_agent] at h2
  simp only [comment_responder_agent] at h3
  simp [pipelineExec, comment_interaction_agent, h1, h2, h3,
    state_setup_agent, comment_analyzer_agent, comment_responder_agent]

theorem pipelineExec_success (gen : Gen) (msg : Val) (v a r : Val)
    (h1 : gen state_setup_agent msg [] = .ok v)
    (h2 : gen comment_analyzer_agent msg (stateSet [] "initial_data" v) = .ok a)
    (h3 : gen comment_responder_agent msg
        (stateSet (stateSet [] "initial_data" v) "analysis" a) = .ok r) :
    pipelineExec gen msg comment_interaction_agent [] =
      (stateSet (stateSet (stateSet [] "initial_data" v) "analysis" a)
          "final_response" r, none,
        [⟨"StateSetup", "initial_data", [], v⟩,
         ⟨"CommentAnalyzer", "analysis", stateSet [] "initial_data" v, a⟩,
         ⟨"CommentResponder", "final_response",
           stateSet (stateSet [] "initial_data" v) "analysis" a, r⟩]) := by
  simp only [state_setup_agent] at h1
  simp only [comment_analyzer_agent] at h2
  simp only [comment_responder_agent] at h3
  simp [pipelineExec, comment_interaction_agent, h1, h2, h3,
    state_setup_agent, comment_analyzer_agent, comment_responder_agent]

/-- A concrete backend on which all three stages succeed: Setup echoes the
seed message, the Analyzer reports "positive", the Responder replies. -/
def genHappy : Gen := fun stg msg _ =>
  if stg.name == "StateSetup" then .ok msg
  else if stg.name == "CommentAnalyzer" then .ok (.str "positive")
  else .ok (.str "Thanks for reading!")

/-- The seed message of the happy-path scenario. -/
def msgHappy : Val := initial_message_data "Great post!" "Post about X" "happy"

/-- C2 counterexample: on a concrete full run, the first stage to execute is
`StateSetup` and the state container it observes as input is empty — in
particular the well-known initial key `initial_data` is NOT present in the
invocation's state before the Setup stage runs; it only appears in the final
state, as Setup's output. -/
theorem C2_counterexample :
    (List.head? (pipelineExec genHappy msgHappy
        comment_interaction_agent []).2.2).map StageRun.name =
      some "StateSetup" ∧
    (List.head? (pipelineExec genHappy msgHappy
        comment_interaction_agent []).2.2).map StageRun.input = some [] ∧
    stateGet [] "initial_data" = none ∧
    stateGet (pipelineExec genHappy msgHappy
        comment_interaction_agent []).1 "initial_data" = some msgHappy := by
  decide

/-- C2 (amended): the seed payload is serialized as a single structured value
(`initial_message_data`) and passed as the invocation's initial message; the
state container observed by the Setup stage is empty (no initial key), and
the well-known key `initial_data` is populated with Setup's output — after
Setup runs, not before — and is still present in the final state. -/
theorem C2_seed_via_setup (gen : Gen) (comment context tone : String) (v : Val)
    (h1 : gen state_setup_agent (initial_message_data comment context tone) [] =
      .ok v) :
    List.head? (pipelineExec gen (initial_message_data comment context tone)
        comment_interaction_agent []).2.2 =
      some ⟨"StateSetup", "initial_data", [], v⟩ ∧
    stateGet [] "initial_data" = none ∧
    stateGet (pipelineExec gen (initial_message_data comment context tone)
        comment_interaction_agent []).1 "initial_data" = some v := by
  cases h2 : gen comment_analyzer_agent (initial_message_data comment context tone)
      (stateSet [] "initial_data" v) with
  | error e =>
    rw [pipelineExec_analyzer_error _ _ _ _ h1 h2]
    refine ⟨rfl, rfl, ?_⟩
    simp [stateGet, stateSet]
  | ok a =>
    cases h3 : gen comment_responder_agent (initial_message_data comment context tone)
        (stateSet (stateSet [] "initial_data" v) "analysis" a) with
    | error e =>
      rw [pipelineExec_responder_error _ _ _ _ _ h1 h2 h3]
      refine ⟨rfl, rfl, ?_⟩
      simp [stateGet, stateSet]
    | ok r =>
      rw [pipelineExec_success _ _ _ _ _ h1 h2 h3]
      refine ⟨rfl, rfl, ?_⟩
      simp [stateGet, stateSet]

theorem C2_seed_via_setup_witness :
    stateGet (pipelineExec genHappy msgHappy
        comment_interaction_agent []).1 "initial_data" = some msgHappy :=
  (C2_seed_via_setup genHappy "Great post!" "Post about X" "happy" msgHappy
    rfl).2.2

/-- C6: within every invocation the stages execute strictly in the fixed
order Setup, Analyzer, Responder (the executed-stage trace is an initial
segment of that sequence); whenever the Analyzer runs, its input state
contains Setup's output under `initial_data`; whenever the Responder runs,
its input state contains both Setup's output (`initial_data`) and the
Analyzer's output (`analysis`). -/
theorem C6_stage_ordering (gen : Gen) (msg : Val) :
    (List.map StageRun.name
        (pipelineExec gen msg comment_interaction_agent []).2.2 = [] ∨
      List.map StageRun.name
        (pipelineExec gen msg comment_interaction_agent []).2.2 =
          ["StateSetup"] ∨
      List.map StageRun.name
        (pipelineExec gen msg comment_interaction_agent []).2.2 =
          ["StateSetup", "CommentAnalyzer"] ∨
      List.map StageRun.name
        (pipelineExec gen msg comment_interaction_agent []).2.2 =
          ["StateSetup", "CommentAnalyzer", "CommentResponder"]) ∧
    (∀ r ∈ (pipelineExec gen msg comment_interaction_agent []).2.2,
      r.name = "CommentAnalyzer" →
      ∃ v, gen state_setup_agent msg [] = Except.ok v ∧
        stateGet r.input "initial_data" = some v) ∧
    (∀ r ∈ (pipelineExec gen msg comment_interaction_agent []).2.2,
      r.name = "CommentResponder" →
      ∃ v a, gen state_setup_agent msg [] = Except.ok v ∧
        gen comment_analyzer_agent msg (stateSet [] "initial_data" v) =
          Except.ok a ∧
        stateGet r.input "initial_data" = some v ∧
        stateGet r.input "analysis" = some a) := by
  cases h1 : gen state_setup_agent msg [] with
  | error e =>
    rw [pipelineExec_setup_error _ _ _ h1]
    exact ⟨.inl rfl, by simp, by simp⟩
  | ok v =>
    cases h2 : gen comment_analyzer_agent msg (stateSet [] "initial_data" v) with
    | error e =>
      rw [pipelineExec_analyzer_error _ _ _ _ h1 h2]
      refine ⟨.inr (.inl (by simp)), ?_, ?_⟩
      · intro r hr hname
        simp only [List.mem_singleton] at hr
        subst hr
        simp at hname
      · intro r hr hname
        simp only [List.mem_singleton] at hr
        subst hr
        simp at hname
    | ok a =>
      cases h3 : gen comment_responder_agent msg
          (stateSet (stateSet [] "initial_data" v) "analysis" a) with
      | error e =>
        rw [pipelineExec_responder_error _ _ _ _ _ h1 h2 h3]
        refine ⟨.inr (.inr (.inl (by simp))), ?_, ?_⟩
        · intro r hr hname
          simp only [List.mem_cons, List.mem_singleton] at hr
          rcases hr with hr | hr | hr
          · subst hr; simp at hname
          · subst hr
            exact ⟨v, rfl, by simp [stateGet, stateSet]⟩
          · cases hr
        · intro r hr hname
          simp only [List.mem_cons, List.mem_singleton] at hr
          rcases hr with hr | hr | hr
          · subst hr; simp at hname
          · subst hr; simp at hname
          · cases hr
      | ok r0 =>
        rw [pipelineExec_success _ _ _ _ _ h1 h2 h3]
        refine ⟨.inr (.inr (.inr (by simp))), ?_, ?_⟩
        · intro r hr hname
          simp only [List.mem_cons, List.mem_singleton] at hr
          rcases hr with hr | hr | hr | hr
          · subst hr; simp at hname
          · subst hr
            exact ⟨v, rfl, by simp [stateGet, stateSet]⟩
          · subst hr; simp at hname
          · cases hr
        · intro r hr hname
          simp only [List.mem_cons, List.mem_singleton] at hr
          rcases hr with hr | hr | hr | hr
          · subst hr; simp at hname
          · subst hr; simp at hname
          · subst hr
            refine ⟨v, a, rfl, h2, ?_, ?_⟩ <;> simp [stateGet, stateSet]
          · cases hr

theorem C6_stage_ordering_witness :
    ∃ v, genHappy state_setup_agent msgHappy [] = Except.ok v ∧
      stateGet (stateSet [] "initial_data" msgHappy) "initial_data" = some v :=
  (C6_stage_ordering genHappy msgHappy).2.1
    ⟨"CommentAnalyzer", "analysis", stateSet [] "initial_data" msgHappy,
      .str "positive"⟩
    (by decide) rfl

/-- C7: when Setup succeeds and the Analyzer stage fails, the Responder
stage never executes, the state accumulated before the failure (Setup's
output under `initial_data`) is retained and returned in the result's
`final_state`, and the result's `final_response` is null. -/
theorem C7_analyzer_failfast (session_id comment context tone e : String)
    (gen : Gen) (v : Val)
    (h1 : gen state_setup_agent (initial_message_data comment context tone) [] =
      .ok v)
    (h2 : gen comment_analyzer_agent (initial_message_data comment context tone)
        (stateSet [] "initial_data" v) = .error e) :
    (∀ r ∈ (pipelineExec gen (initial_message_data comment context tone)
        comment_interaction_agent []).2.2, ¬r.name = "CommentResponder") ∧
    (run_interaction_with_gen session_id comment context tone gen).final_state =
      stateSet [] "initial_data" v ∧
    stateGet (run_interaction_with_gen session_id comment context tone
        gen).final_state "initial_data" = some v ∧
    (run_interaction_with_gen session_id comment context tone gen).final_response =
      none := by
  have hp := pipelineExec_analyzer_error gen
    (initial_message_data comment context tone) v e h1 h2
  have hw : worldOfGen (initial_message_data comment context tone) gen =
      { create_session := none
        events := []
        run_exn := some e
        session_reads := fun _ => .found (stateSet [] "initial_data" v) } := by
    simp [worldOfGen, hp, terminalEvents]
  have hrun : run_interaction_with_gen session_id comment context tone gen =
      mkResult session_id (stateSet [] "initial_data" v)
        (some ("Agent execution failed: " ++ e)) none := by
    unfold run_interaction_with_gen
    rw [hw]
    simp [run_comment_interaction, run_comment_interaction_instr, lastFinalText]
  refine ⟨?_, ?_, ?_, ?_⟩
  · rw [hp]
    intro r hr
    simp only [List.mem_singleton] at hr
    subst hr
    simp
  · rw [hrun, mkResult_final_state]
  · rw [hrun, mkResult_final_state]
    simp [stateGet, stateSet]
  · rw [hrun, mkResult_final_response]
    simp [stateGet, stateSet, optStrTruthy]

/-- A concrete backend on which Setup succeeds and the Analyzer fails. -/
def genAnalyzerFail : Gen := fun stg msg _ =>
  if stg.name == "StateSetup" then .ok msg
  else .error "model timeout"

theorem C7_analyzer_failfast_witness :
    (run_interaction_with_gen "s6" "Great post!" "Post about X" "happy"
        genAnalyzerFail).final_state =
      stateSet [] "initial_data" msgHappy ∧
    (run_interaction_with_gen "s6" "Great post!" "Post about X" "happy"
        genAnalyzerFail).final_response = none :=
  ⟨((C7_analyzer_failfast "s6" "Great post!" "Post about X" "happy"
      "model timeout" genAnalyzerFail msgHappy rfl rfl).2.1),
   ((C7_analyzer_failfast "s6" "Great post!" "Post about X" "happy"
      "model timeout" genAnalyzerFail msgHappy rfl rfl).2.2.2)⟩

/-- Modelled from the spec: the session identifier
`f"session_\x7buuid.uuid4()\x7d"` is "generated fresh per request" and
"collision-resistant across concurrent requests"; the uuid supply is
modelled as an injective enumeration, invocation `n` drawing identifier
`session_` followed by `n` marks. -/
def fresh_session_id (n : Nat) : String :=
  "session_" ++ String.replicate n 'u'

theorem fresh_session_id_inj (m n : Nat)
    (h : fresh_session_id m = fresh_session_id n) : m = n := by
  have hl := congrArg String.length h
  simpa [fresh_session_id, String.length_append] using hl

/-- An operation on the shared in-memory session store: registering a fresh
session, or committing one stage output into one session's state. -/
inductive Op where
  | create (sid : String)
  | write (sid : String) (key : String) (v : Val)
deriving DecidableEq, Repr

/-- The session identifier an operation touches. -/
def Op.sid : Op → String
  | .create s => s
  | .write s _ _ => s

/-- Modelled from the spec: the `InMemorySessionService`'s process-wide
storage, "shared across all concurrent invocations, keyed by session
identifier". -/
abbrev SessionStore : Type := List (String × StateMap)

/-- Retrieval of one session's state container (`get(sessionId)`). -/
def storeGetSession (s : SessionStore) (sid : String) : Option StateMap :=
  (List.find? (fun p => p.1 == sid) s).map (fun p => p.2)

/-- Modelled from the spec: `create(sessionId)` "registers a new, empty
state container" (insert-if-absent discipline); a stage's committed output
is merged into the owning session's container only. -/
def storeApply (s : SessionStore) : Op → SessionStore
  | .create sid =>
    if (List.find? (fun p => p.1 == sid) s).isSome then s else s ++ [(sid, [])]
  | .write sid k v =>
    List.map (fun p => if p.1 == sid then (p.1, stateSet p.2 k v) else p) s

/-- Run a sequence of store operations from an initial store. -/
def storeRun (s : SessionStore) (ops : List Op) : SessionStore :=
  List.foldl storeApply s ops

/-- The effect of one operation on a single session's container, viewed at
that session's key. -/
def applyAt (cur : Option StateMap) : Op → Option StateMap
  | .create _ => if cur.isSome then cur else some []
  | .write _ k v => cur.map (fun st => stateSet st k v)

theorem storeGetSession_nil (sid : String) : storeGetSession [] sid = none := rfl

theorem storeGetSession_cons (p : String × StateMap) (s : SessionStore)
    (sid : String) :
    storeGetSession (p :: s) sid =
      if p.1 == sid then some p.2 else storeGetSession s sid := by
  by_cases h : p.1 == sid <;> simp [storeGetSession, List.find?_cons, h]

theorem storeGetSession_append (s t : SessionStore) (sid : String) :
    storeGetSession (s ++ t) sid =
      match storeGetSession s sid with
      | some st => some st
      | none => storeGetSession t sid := by
  induction s with
  | nil => simp [storeGetSession_nil]
  | cons p rest ih =>
    by_cases h : p.1 == sid <;>
      simp [storeGetSession_cons, h, ih]

theorem storeGetSession_writeMap (s : SessionStore) (sid' k : String) (v : Val)
    (sid : String) :
    storeGetSession
        (List.map (fun p => if p.1 == sid' then (p.1, stateSet p.2 k v) else p) s)
        sid =
      if sid' == sid then
        (storeGetSession s sid).map (fun st => stateSet st k v)
      else storeGetSession s sid := by
  induction s with
  | nil => by_cases h : sid' = sid <;> simp [storeGetSession_nil, h]
  | cons p rest ih =>
    simp only [List.map_cons, storeGetSession_cons, beq_iff_eq] at ih ⊢
    by_cases hps : p.1 = sid'
    · by_cases hss : sid' = sid
      · subst hss
        simp [hps]
      · simp [hps, hss, ih]
    · by_cases hpd : p.1 = sid
      · have hss : ¬sid' = sid := by
          intro he
          exact hps (by rw [hpd, he])
        have hss2 : ¬sid = sid' := fun he => hss he.symm
        simp [hps, hpd, hss, hss2]
      · simp [hps, hpd, ih]

/-- Applying an operation affects a session lookup exactly as `applyAt` when
the operation touches that session, and not at all otherwise. -/
theorem storeGetSession_storeApply (s : SessionStore) (op : Op) (sid : String) :
    storeGetSession (storeApply s op) sid =
      if Op.sid op == sid then applyAt (storeGetSession s sid) op
      else storeGetSession s sid := by
  cases op with
  | create sid' =>
    simp only [storeApply, Op.sid]
    by_cases hfind : (List.find? (fun p => p.1 == sid') s).isSome = true
    · rw [if_pos hfind]
      by_cases h : sid' = sid
      · subst h
        obtain ⟨q, hq⟩ := Option.isSome_iff_exists.mp hfind
        have hgs : storeGetSession s sid' = some q.2 := by
          simp [storeGetSession, hq]
        simp [applyAt, hgs]
      · simp [h]
    · rw [if_neg hfind]
      rw [storeGetSession_append]
      have hnone : storeGetSession s sid' = none := by
        simp only [storeGetSession]
        rw [Option.not_isSome_iff_eq_none.mp hfind]
        rfl
      by_cases h : sid' = sid
      · subst h
        simp [hnone, storeGetSession_cons, applyAt]
      · have h2 : ¬sid' = sid := h
        cases hg : storeGetSession s sid with
        | some st => simp [hg, h2]
        | none => simp [hg, storeGetSession_cons, storeGetSession_nil, h2]
  | write sid' k v =>
    simp only [storeApply, Op.sid]
    rw [storeGetSession_writeMap]
    by_cases h : sid' = sid <;> simp [h, applyAt]

/-- Store lookup after a run of operations is the fold of `applyAt` over
exactly the operations that touch the session. -/
theorem storeGetSession_storeRun (ops : List Op) (s : SessionStore)
    (sid : String) :
    storeGetSession (storeRun s ops) sid =
      List.foldl applyAt (storeGetSession s sid)
        (List.filter (fun op => Op.sid op == sid) ops) := by
  induction ops generalizing s with
  | nil => rfl
  | cons op rest ih =>
    by_cases h : Op.sid op == sid
    · simp only [storeRun, List.foldl_cons, List.filter_cons, h, if_true]
      rw [show List.foldl storeApply (storeApply s op) rest = storeRun (storeApply s op) rest from rfl]
      rw [ih, storeGetSession_storeApply]
      simp [h]
    · simp only [storeRun, List.foldl_cons, List.filter_cons, h]
      rw [show List.foldl storeApply (storeApply s op) rest = storeRun (storeApply s op) rest from rfl]
      rw [ih, storeGetSession_storeApply]
      simp [h]

/-- `Interleave la lb lc`: `lc` is an interleaving of `la` and `lb` that
preserves the relative order of each (the two invocations' operations may be
scheduled in any relative order). -/
inductive Interleave : List Op → List Op → List Op → Prop
  | nil : Interleave [] [] []
  | left {a : Op} {la lb lc : List Op} :
      Interleave la lb lc → Interleave (a :: la) lb (a :: lc)
  | right {b : Op} {la lb lc : List Op} :
      Interleave la lb lc → Interleave la (b :: lb) (b :: lc)

theorem Interleave.filter_true_left {p : Op → Bool} {la lb lc : List Op}
    (h : Interleave la lb lc)
    (ha : ∀ a ∈ la, p a = true) (hb : ∀ b ∈ lb, p b = false) :
    List.filter p lc = la := by
  induction h with
  | nil => rfl
  | @left a la lb lc h ih =>
    have hpa : p a = true := ha a (List.mem_cons_self a la)
    simp only [List.filter_cons, hpa, if_true, List.cons.injEq]
    exact ⟨trivial, ih (fun x hx => ha x (List.mem_cons_of_mem a hx)) hb⟩
  | @right b la lb lc h ih =>
    have hpb : p b = false := hb b (List.mem_cons_self b lb)
    simp only [List.filter_cons, hpb, Bool.false_eq_true, if_false]
    exact ih ha (fun x hx => hb x (List.mem_cons_of_mem b hx))

theorem Interleave.filter_true_right {p : Op → Bool} {la lb lc : List Op}
    (h : Interleave la lb lc)
    (ha : ∀ a ∈ la, p a = false) (hb : ∀ b ∈ lb, p b = true) :
    List.filter p lc = lb := by
  induction h with
  | nil => rfl
  | @left a la lb lc h ih =>
    have hpa : p a = false := ha a (List.mem_cons_self a la)
    simp only [List.filter_cons, hpa, Bool.false_eq_true, if_false]
    exact ih (fun x hx => ha x (List.mem_cons_of_mem a hx)) hb
  | @right b la lb lc h ih =>
    have hpb : p b = true := hb b (List.mem_cons_self b lb)
    simp only [List.filter_cons, hpb, if_true, List.cons.injEq]
    exact ⟨trivial, ih ha (fun x hx => hb x (List.mem_cons_of_mem b hx))⟩

/-- The shared-store operations one invocation performs, in program order:
register its fresh session, then commit each completed stage's output under
its own session identifier (per the spec, "each invocation touches only its
own key"). -/
def invocationOps (sid : String) (msg : Val) (gen : Gen) : List Op :=
  .create sid ::
    List.map (fun r => Op.write sid r.key r.output)
      (pipelineExec gen msg comment_interaction_agent []).2.2

theorem invocationOps_sid (sid : String) (msg : Val) (gen : Gen) :
    ∀ op ∈ invocationOps sid msg gen, Op.sid op = sid := by
  intro op hop
  simp only [invocationOps, List.mem_cons, List.mem_map] at hop
  rcases hop with h | ⟨r, _, h⟩ <;> subst h <;> rfl

/-- The pipeline's final state is the fold of the committed stage outputs
over the initial state. -/
theorem pipelineExec_state_eq_trace (gen : Gen) (msg : Val) (stages : List Stage)
    (st : StateMap) :
    (pipelineExec gen msg stages st).1 =
      List.foldl (fun acc r => stateSet acc r.key r.output) st
        (pipelineExec gen msg stages st).2.2 := by
  induction stages generalizing st with
  | nil => rfl
  | cons stg rest ih =>
    simp only [pipelineExec]
    cases h : gen stg msg st with
    | error e => rfl
    | ok v => simp [ih]

theorem foldl_applyAt_writes (sid : String) (ws : List StageRun) (st : StateMap) :
    List.foldl applyAt (some st)
        (List.map (fun r => Op.write sid r.key r.output) ws) =
      some (List.foldl (fun acc r => stateSet acc r.key r.output) st ws) := by
  induction ws generalizing st with
  | nil => rfl
  | cons r rest ih => simp [applyAt, ih]

/-- Running one invocation's operations alone yields exactly its pipeline's
final state under its session key. -/
theorem storeRun_solo (sid : String) (msg : Val) (gen : Gen) :
    List.foldl applyAt none (invocationOps sid msg gen) =
      some (pipelineExec gen msg comment_interaction_agent []).1 := by
  simp only [invocationOps, List.foldl_cons]
  have h0 : applyAt none (Op.create sid) = some [] := rfl
  rw [h0, foldl_applyAt_writes]
  rw [← pipelineExec_state_eq_trace]

/-- C8: for two concurrently executed invocations drawn from distinct uuid
draws, the session identifiers are distinct, and under ANY interleaving of
their store operations, each invocation's final state in the shared store is
exactly the state its own pipeline computes from its own inputs — no key or
value originating from the other invocation's seed or stage outputs ever
appears in it, and neither invocation observes or mutates the other's
state. -/
theorem C8_isolation (m n : Nat) (msgA msgB : Val) (genA genB : Gen)
    (ops : List Op) (hmn : m ≠ n)
    (h : Interleave (invocationOps (fresh_session_id m) msgA genA)
      (invocationOps (fresh_session_id n) msgB genB) ops) :
    fresh_session_id m ≠ fresh_session_id n ∧
    storeGetSession (storeRun [] ops) (fresh_session_id m) =
      some (pipelineExec genA msgA comment_interaction_agent []).1 ∧
    storeGetSession (storeRun [] ops) (fresh_session_id n) =
      some (pipelineExec genB msgB comment_interaction_agent []).1 := by
  have hids : fresh_session_id m ≠ fresh_session_id n :=
    fun he => hmn (fresh_session_id_inj m n he)
  refine ⟨hids, ?_, ?_⟩
  · rw [storeGetSession_storeRun]
    rw [Interleave.filter_true_left h
      (fun a ha => by
        have := invocationOps_sid (fresh_session_id m) msgA genA a ha
        simp [this])
      (fun b hb => by
        have := invocationOps_sid (fresh_session_id n) msgB genB b hb
        simp only [this, beq_eq_false_iff_ne, ne_eq]
        exact fun he => hids he.symm)]
    rw [storeGetSession_nil, storeRun_solo]
  · rw [storeGetSession_storeRun]
    rw [Interleave.filter_true_right h
      (fun a ha => by
        have := invocationOps_sid (fresh_session_id m) msgA genA a ha
        simp only [this, beq_eq_false_iff_ne, ne_eq]
        exact hids)
      (fun b hb => by
        have := invocationOps_sid (fresh_session_id n) msgB genB b hb
        simp [this])]
    rw [storeGetSession_nil, storeRun_solo]

/-- Seed message of a second, concurrent invocation with a different tone. -/
def msgSkeptic : Val :=
  initial_message_data "Quantum feels overhyped." "Post about X" "strict"

/-- A concrete interleaved schedule of two concurrent invocations'
store operations. -/
def opsWitness : List Op :=
  [.create (fresh_session_id 0), .create (fresh_session_id 1),
   .write (fresh_session_id 0) "initial_data" msgHappy,
   .write (fresh_session_id 1) "initial_data" msgSkeptic,
   .write (fresh_session_id 0) "analysis" (.str "positive"),
   .write (fresh_session_id 0) "final_response" (.str "Thanks for reading!")]

theorem interleave_opsWitness :
    Interleave (invocationOps (fresh_session_id 0) msgHappy genHappy)
      (invocationOps (fresh_session_id 1) msgSkeptic genAnalyzerFail)
      opsWitness := by
  have hA : invocationOps (fresh_session_id 0) msgHappy genHappy =
      [.create (fresh_session_id 0),
       .write (fresh_session_id 0) "initial_data" msgHappy,
       .write (fresh_session_id 0) "analysis" (.str "positive"),
       .write (fresh_session_id 0) "final_response" (.str "Thanks for reading!")] := by
    decide
  have hB : invocationOps (fresh_session_id 1) msgSkeptic genAnalyzerFail =
      [.create (fresh_session_id 1),
       .write (fresh_session_id 1) "initial_data" msgSkeptic] := by
    decide
  rw [hA, hB]
  exact .left (.right (.left (.right (.left (.left .nil)))))

theorem C8_isolation_witness :
    storeGetSession (storeRun [] opsWitness) (fresh_session_id 0) =
      some (pipelineExec genHappy msgHappy comment_interaction_agent []).1 ∧
    storeGetSession (storeRun [] opsWitness) (fresh_session_id 1) =
      some (pipelineExec genAnalyzerFail msgSkeptic
        comment_interaction_agent []).1 :=
  ⟨(C8_isolation 0 1 msgHappy msgSkeptic genHappy genAnalyzerFail opsWitness
      (by decide) interleave_opsWitness).2.1,
   (C8_isolation 0 1 msgHappy msgSkeptic genHappy genAnalyzerFail opsWitness
      (by decide) interleave_opsWitness).2.2⟩
